import Mathlib

/-!
Verification of the svn-utility wrapper (src/src/libs.rs).

Rust strings are modelled as lists of characters (`Str`); byte-index slicing
(`line[i..]`), which panics when the index is out of bounds or not on a UTF-8
character boundary, is modelled by `sliceFrom`, which consumes `i` bytes of
UTF-8 and returns `none` exactly in the panicking cases.  The subprocess
boundary is modelled by its outcome: `Except Str ProcOutput` is the result of
`Command::output()`, where the `Except.error` case carries the spawn error's
message and `ProcOutput` carries the exit-status flag and the lossily decoded
standard output / standard error texts.  Computations that may panic are
valued in `Panics`.
-/

/-- Rust string slices, modelled as lists of characters. -/
abbrev Str := List Char

/-- Conversion from Lean string literals to the model. -/
def str (s : String) : Str := s.data

/-- Model of a computation that may panic (array/slice index out of bounds,
`expect` on `Err`, …). -/
inductive Panics (α : Type) where
  | panicked : Panics α
  | ret : α → Panics α
  deriving DecidableEq

/-- Sequencing of possibly-panicking computations: a panic propagates. -/
def Panics.bind {α β : Type} : Panics α → (α → Panics β) → Panics β
  | .panicked, _ => .panicked
  | .ret a, f => f a

/-- UTF-8 byte length of a character (1, 2, 3 or 4 bytes). -/
def charSize (c : Char) : Nat := c.utf8Size

/-- Model of the Rust byte slice `s[i..]`: drop the first `i` UTF-8 bytes.
Returns `none` (a panic) when `i` exceeds the byte length of `s` or falls
strictly inside the encoding of a character. -/
def sliceFrom : Str → Nat → Option Str
  | s, 0 => some s
  | [], _ + 1 => none
  | c :: s, i + 1 => if charSize c ≤ i + 1 then sliceFrom s (i + 1 - charSize c) else none

/-- Split a list at every occurrence of `sep`, keeping empty segments, as
Rust's `str::split` does (`"".split(sep)` yields one empty segment). -/
def splitOn (sep : Char) : Str → List Str
  | [] => [[]]
  | c :: s =>
    let rest := splitOn sep s
    if c = sep then [] :: rest else (c :: rest.headD []) :: rest.drop 1

/-- Remove one trailing carriage return, as Rust's `str::lines` does on each
newline-terminated segment. -/
def stripCR (l : Str) : Str :=
  if l.getLast? = some '\r' then l.dropLast else l

/-- Model of Rust's `str::lines`: split at `'\n'`, strip a `'\r'` at the end
of every newline-terminated segment, and do not produce a final empty line
for a trailing newline. -/
def rustLines (s : Str) : List Str :=
  let segs := splitOn '\n' s
  let body := (segs.dropLast).map stripCR
  match segs.getLast? with
  | some [] => body
  | some lst => body ++ [lst]
  | none => body

/-- Numeric value of a list of decimal digit characters. -/
def digitsToNat (s : Str) : Nat :=
  s.foldl (fun acc c => acc * 10 + (c.toNat - '0'.toNat)) 0

/-- Model of Rust's `str::parse::<u32>()` (returning `Option`, as used with
`.ok()`): an optional leading `'+'`, then one or more ASCII digits, and the
value must fit in 32 bits. -/
def parseU32 (s : Str) : Option Nat :=
  let body : Str := match s with
    | '+' :: rest => rest
    | _ => s
  if body.isEmpty then none
  else if body.all Char.isDigit then
    if digitsToNat body < 2 ^ 32 then some (digitsToNat body) else none
  else none

deriving instance DecidableEq for Except

/-- The single error kind of the library (`enum SvnError`). -/
inductive SvnError where
  | commandFailed : Str → SvnError
  deriving DecidableEq

/-- Captured result of a successfully spawned subprocess: exit-status success
flag and the lossily decoded standard output and standard error. -/
structure ProcOutput where
  success : Bool
  stdout : Str
  stderr : Str
  deriving DecidableEq

/-- The record produced by `svn info` parsing (`struct SvnInfo`). -/
structure SvnInfo where
  url : Str
  repository_root : Str
  last_changed_author : Str
  last_changed_rev : Nat
  last_changed_date : Str
  deriving DecidableEq

/-- The line used for a labelled field:
`output_str.lines().find(|line| line.starts_with(label))`. -/
def findLabeled (ls : List Str) (label : Str) : Option Str :=
  ls.find? (fun l => label.isPrefixOf l)

/-- One field extraction of `SvnInfo::new`:
`lines().find(starts_with label).map(|line| line[i..].to_owned())`,
with the byte slice's panic made explicit. -/
def findField (ls : List Str) (label : Str) (i : Nat) : Panics (Option Str) :=
  match findLabeled ls label with
  | none => .ret none
  | some l =>
    match sliceFrom l i with
    | none => .panicked
    | some r => .ret (some r)

/-- The revision extraction of `SvnInfo::new`:
`lines().find(starts_with "Last Changed Rev: ").and_then(|line| line[19..].parse::<u32>().ok())`. -/
def findRevField (ls : List Str) : Panics (Option Nat) :=
  match findLabeled ls (str "Last Changed Rev: ") with
  | none => .ret none
  | some l =>
    match sliceFrom l 19 with
    | none => .panicked
    | some r => .ret (parseU32 r)

/-- The fixed parse-failure message of `SvnInfo::new`. -/
def parseErrorMessage : Str := str "Unable to parse svn info output"

/-- The parsing part of `SvnInfo::new` (lines 121–139 of libs.rs), applied to
the captured standard-output text: the five field extractions in source
order (with the source's slice indices 5, 17, 22, 19, 20), then either a
complete record or the one generic parse error. -/
def parseInfo (text : Str) : Panics (Except SvnError SvnInfo) :=
  let ls := rustLines text
  (findField ls (str "URL: ") 5).bind fun url =>
  (findField ls (str "Repository Root: ") 17).bind fun repository_root =>
  (findField ls (str "Last Changed Author: ") 22).bind fun last_changed_author =>
  (findRevField ls).bind fun last_changed_rev =>
  (findField ls (str "Last Changed Date: ") 20).bind fun last_changed_date =>
  match url, repository_root, last_changed_author, last_changed_rev, last_changed_date with
  | some u, some rr, some a, some v, some d => .ret (.ok ⟨u, rr, a, v, d⟩)
  | _, _, _, _, _ => .ret (.error (.commandFailed parseErrorMessage))

/-- Model of `SvnInfo::new`, as a function of the subprocess outcome: spawn
error and non-zero exit become `CommandFailed`, otherwise the captured
standard output is parsed. -/
def SvnInfo.new (spawned : Except Str ProcOutput) : Panics (Except SvnError SvnInfo) :=
  match spawned with
  | .error e => .ret (.error (.commandFailed e))
  | .ok output =>
    if output.success then parseInfo output.stdout
    else .ret (.error (.commandFailed output.stderr))

/-- Model of the free function `version`: `expect` panics on a spawn error,
and the lossily decoded standard output is returned without looking at the
exit status. -/
def version (spawned : Except Str ProcOutput) : Panics Str :=
  match spawned with
  | .error _ => .panicked
  | .ok output => .ret output.stdout

namespace SvnWrapper

/-- Model of `SvnWrapper::commit`, as a function of the subprocess outcome. -/
def commit (spawned : Except Str ProcOutput) : Except SvnError Unit :=
  match spawned with
  | .error e => .error (.commandFailed e)
  | .ok output =>
    if output.success then .ok () else .error (.commandFailed output.stderr)

/-- Model of `SvnWrapper::checkout`, as a function of the subprocess outcome. -/
def checkout (spawned : Except Str ProcOutput) : Except SvnError Unit :=
  match spawned with
  | .error e => .error (.commandFailed e)
  | .ok output =>
    if output.success then .ok () else .error (.commandFailed output.stderr)

/-- Model of `SvnWrapper::update`, as a function of the subprocess outcome. -/
def update (spawned : Except Str ProcOutput) : Except SvnError Unit :=
  match spawned with
  | .error e => .error (.commandFailed e)
  | .ok output =>
    if output.success then .ok () else .error (.commandFailed output.stderr)

/-- Model of `SvnWrapper::log`, as a function of the subprocess outcome:
success returns the lossily decoded standard output. -/
def log (spawned : Except Str ProcOutput) : Except SvnError Str :=
  match spawned with
  | .error e => .error (.commandFailed e)
  | .ok output =>
    if output.success then .ok output.stdout
    else .error (.commandFailed output.stderr)

end SvnWrapper

/-- One status entry (`struct SvnStatus`), fields in source order. -/
structure SvnStatus where
  item : Str
  status : Str
  repository_status : Str
  working_copy_status : Str
  deriving DecidableEq

/-- The loop body of `SvnStatus::new` for one line: split on single spaces,
skip the line when fewer than two fields result, otherwise take fields 0–3
with the third and fourth defaulting to the empty string. -/
def entryOfLine (line : Str) : Option SvnStatus :=
  let parts := splitOn ' ' line
  if parts.length < 2 then none
  else some ⟨parts.getD 1 [], parts.getD 0 [], parts.getD 2 [], parts.getD 3 []⟩

/-- The accumulation loop of `SvnStatus::new`: each kept line's entry is
pushed onto the vector. -/
def statusLoop : List Str → List SvnStatus → List SvnStatus
  | [], acc => acc
  | l :: ls, acc =>
    match entryOfLine l with
    | none => statusLoop ls acc
    | some e => statusLoop ls (acc ++ [e])

/-- The parsing part of `SvnStatus::new` (lines 165–188 of libs.rs), applied
to the captured standard-output text. -/
def parseStatusOutput (text : Str) : List SvnStatus :=
  statusLoop (rustLines text) []

/-- Model of `SvnStatus::new`, as a function of the subprocess outcome. -/
def SvnStatus.new (spawned : Except Str ProcOutput) : Except SvnError (List SvnStatus) :=
  match spawned with
  | .error e => .error (.commandFailed e)
  | .ok output =>
    if output.success then .ok (parseStatusOutput output.stdout)
    else .error (.commandFailed output.stderr)

example : sliceFrom (str "URL: abc") 5 = some (str "abc") := by decide

example : rustLines (str "a\r\nb\nc") = [str "a", str "b", str "c"] := by decide

example : splitOn ' ' (str "a  b") = [str "a", [], str "b"] := by decide

example : parseU32 (str "42") = some 42 := by decide

/-- C1: on the spec's example info-text the parser does not return the
post-label substrings verbatim: the slice indices 22, 19 and 20 are one past
the label lengths 21, 18 and 19, so the author comes back as "lice", the
revision as 2 and the date as "024-01-01". -/
theorem claim_C1 :
    parseInfo (str "URL: https://example/repo\nRepository Root: https://example\nLast Changed Author: alice\nLast Changed Rev: 42\nLast Changed Date: 2024-01-01") =
      .ret (.ok ⟨str "https://example/repo", str "https://example", str "lice", 2, str "024-01-01"⟩) := by
  decide

/-- C2: an info-text whose first "Last Changed Rev: " line has the
non-numeric remainder "x9" is parsed successfully (revision 9) instead of
failing, because the slice at byte 19 drops the remainder's first byte
before the integer parse. -/
theorem claim_C2 :
    parseInfo (str "URL: u\nRepository Root: r\nLast Changed Author: aa\nLast Changed Rev: x9\nLast Changed Date: dd") =
      .ret (.ok ⟨str "u", str "r", str "a", 9, str "d"⟩) := by
  decide

/-- C4: an info-text lacking the URL (and three other) labelled lines does
not produce the generic parse error: a line consisting exactly of
"Last Changed Author: " makes the slice at byte 22 panic first. -/
theorem claim_C4 : parseInfo (str "Last Changed Author: ") = .panicked := by decide

/-- C9: info-texts on which parsing panics instead of returning a record or
the parse error: a line that is exactly "Last Changed Rev: " or
"Last Changed Date: " (slice index past the end of the line), and an author
line whose first post-label character is two-byte UTF-8 (slice index inside
the character). -/
theorem claim_C9 :
    parseInfo (str "Last Changed Rev: ") = .panicked ∧
    parseInfo (str "Last Changed Date: ") = .panicked ∧
    parseInfo (str "Last Changed Author: é") = .panicked := by
  decide

/-- C3 counterexample: the status line "M       foo/bar.txt        *" does
not yield an entry with item "foo/bar.txt"; the single yielded entry has
item "" because the single-space split fragments the run of spaces into
empty fields. -/
theorem claim_C3_counterexample :
    parseStatusOutput (str "M       foo/bar.txt        *") = [⟨[], str "M", [], []⟩] ∧
    ([] : Str) ≠ str "foo/bar.txt" := by
  decide

/-- C3 (amended): the status line "M       foo/bar.txt        *" yields a
single entry with status "M" and with item, repository_status and
working_copy_status all equal to the empty string: splitting on single
spaces turns the runs of spaces into empty fields, so columns 2, 3 and 4
are empty and "foo/bar.txt" ends up at field index 7. -/
theorem claim_C3 :
    parseStatusOutput (str "M       foo/bar.txt        *") = [⟨[], str "M", [], []⟩] := by
  decide

/-- C10: the version operation does not use the typed error channel: a spawn
failure panics (the `expect`), and for a spawned process the lossily decoded
standard output is returned whatever the exit status is. -/
theorem claim_C10 :
    (∀ e : Str, version (.error e) = .panicked) ∧
    (∀ output : ProcOutput, version (.ok output) = .ret output.stdout) :=
  ⟨fun _ => rfl, fun _ => rfl⟩

/-- C5: for every operation (checkout, commit, update, log, info, status), a
subprocess that exits unsuccessfully produces the command-failure error
carrying exactly the captured standard-error text. -/
theorem claim_C5 (output : ProcOutput) (h : output.success = false) :
    SvnWrapper.checkout (.ok output) = .error (.commandFailed output.stderr) ∧
    SvnWrapper.commit (.ok output) = .error (.commandFailed output.stderr) ∧
    SvnWrapper.update (.ok output) = .error (.commandFailed output.stderr) ∧
    SvnWrapper.log (.ok output) = .error (.commandFailed output.stderr) ∧
    SvnInfo.new (.ok output) = .ret (.error (.commandFailed output.stderr)) ∧
    SvnStatus.new (.ok output) = .error (.commandFailed output.stderr) := by
  simp [SvnWrapper.checkout, SvnWrapper.commit, SvnWrapper.update, SvnWrapper.log,
    SvnInfo.new, SvnStatus.new, h]

theorem findLabeled_first (label a : Str) (l1 l2 : List Str)
    (ha : label.isPrefixOf a = true) (h1 : ∀ b ∈ l1, label.isPrefixOf b = false) :
    findLabeled (l1 ++ a :: l2) label = some a := by
  induction l1 with
  | nil => simp [findLabeled, ha]
  | cons b t ih =>
    have hb : label.isPrefixOf b = false := h1 b (List.mem_cons_self b t)
    have ht : ∀ x ∈ t, label.isPrefixOf x = false :=
      fun x hx => h1 x (List.mem_cons_of_mem b hx)
    simpa [findLabeled, hb] using ih ht

/-- C6: label matching in info parsing is exact-prefix (a line matches a
label exactly when the label followed by some remainder equals the line,
hence case-sensitively: "URL: " does not match "url: x"), and when several
lines of the text begin with the same label the field line is the first
one. -/
theorem claim_C6 :
    (∀ label l : Str, label.isPrefixOf l = true ↔ ∃ r : Str, l = label ++ r) ∧
    (str "URL: ").isPrefixOf (str "url: x") = false ∧
    (∀ (text label : Str) (l1 l2 : List Str) (a : Str),
      rustLines text = l1 ++ a :: l2 →
      label.isPrefixOf a = true →
      (∀ b ∈ l1, label.isPrefixOf b = false) →
      findLabeled (rustLines text) label = some a) := by
  refine ⟨fun label l => ?_, by decide, fun text label l1 l2 a h ha h1 => ?_⟩
  · rw [List.isPrefixOf_iff_prefix]
    constructor
    · rintro ⟨r, hr⟩
      exact ⟨r, hr.symm⟩
    · rintro ⟨r, hr⟩
      exact ⟨r, hr.symm⟩
  · rw [h]
    exact findLabeled_first label a l1 l2 ha h1

/-- C6 witness: in a text with two lines beginning with "URL: " after a
non-matching line, the first of them is selected. -/
theorem claim_C6_witness :
    findLabeled (rustLines (str "X\nURL: a\nURL: b")) (str "URL: ") = some (str "URL: a") :=
  claim_C6.2.2 (str "X\nURL: a\nURL: b") (str "URL: ") [str "X"] [str "URL: b"] (str "URL: a")
    (by decide) (by decide) (by decide)

theorem statusLoop_eq (ls : List Str) (acc : List SvnStatus) :
    statusLoop ls acc = acc ++ ls.filterMap entryOfLine := by
  induction ls generalizing acc with
  | nil => simp [statusLoop]
  | cons l t ih =>
    cases h : entryOfLine l with
    | none => simp [statusLoop, h, ih, List.filterMap_cons]
    | some e => simp [statusLoop, h, ih, List.filterMap_cons]

theorem entryOfLine_eq_none (l : Str) (h : (splitOn ' ' l).length < 2) :
    entryOfLine l = none := by
  simp [entryOfLine, h]

theorem entryOfLine_isSome (l : Str) (h : ¬ (splitOn ' ' l).length < 2) :
    (entryOfLine l).isSome = true := by
  simp [entryOfLine, h]

/-- C7: the status entries are exactly the per-line entries of the input
lines in input order (so lines splitting into fewer than two fields produce
no entry, nothing is deduplicated or sorted), and the number of entries
equals the number of input lines splitting into at least two fields. -/
theorem claim_C7 (text : Str) :
    parseStatusOutput text = (rustLines text).filterMap entryOfLine ∧
    (parseStatusOutput text).length =
      ((rustLines text).filter (fun l => decide (2 ≤ (splitOn ' ' l).length))).length ∧
    (∀ l : Str, (splitOn ' ' l).length < 2 → entryOfLine l = none) := by
  refine ⟨statusLoop_eq (rustLines text) [], ?_, entryOfLine_eq_none⟩
  rw [parseStatusOutput, statusLoop_eq (rustLines text) [], List.nil_append]
  induction rustLines text with
  | nil => rfl
  | cons l t ih =>
    by_cases h : (splitOn ' ' l).length < 2
    · have hd : decide (2 ≤ (splitOn ' ' l).length) = false := by
        simpa [Nat.not_le] using h
      simp [List.filterMap_cons, List.filter_cons, entryOfLine_eq_none l h, hd, ih]
    · have hd : decide (2 ≤ (splitOn ' ' l).length) = true := by
        simpa [Nat.not_lt] using h
      have hs := entryOfLine_isSome l h
      cases he : entryOfLine l with
      | none => rw [he] at hs; simp at hs
      | some e => simp [List.filterMap_cons, List.filter_cons, he, hd, ih]

/-- C7 witness: the line "x" splits into a single field and produces no
entry. -/
theorem claim_C7_witness :
    (splitOn ' ' (str "x")).length < 2 ∧ entryOfLine (str "x") = none :=
  ⟨by decide, (claim_C7 (str "x")).2.2 (str "x") (by decide)⟩

/-- C8: on every status line with at least two fields, field 1 becomes the
entry's status, field 2 the item, field 3 (when present) repository_status
and field 4 (when present) working_copy_status, the latter two defaulting to
the empty string when absent. -/
theorem claim_C8 (line s1 s2 : Str) :
    (splitOn ' ' line = [s1, s2] →
      entryOfLine line = some ⟨s2, s1, [], []⟩) ∧
    (∀ s3 : Str, splitOn ' ' line = [s1, s2, s3] →
      entryOfLine line = some ⟨s2, s1, s3, []⟩) ∧
    (∀ s3 s4 : Str, ∀ rest : List Str, splitOn ' ' line = s1 :: s2 :: s3 :: s4 :: rest →
      entryOfLine line = some ⟨s2, s1, s3, s4⟩) := by
  refine ⟨fun h => ?_, fun s3 h => ?_, fun s3 s4 rest h => ?_⟩ <;>
    simp [entryOfLine, h, List.getD]

/-- C8 witness: the two-field line "A b" yields status "A", item "b" and
empty third and fourth fields. -/
theorem claim_C8_witness :
    splitOn ' ' (str "A b") = [str "A", str "b"] ∧
    entryOfLine (str "A b") = some ⟨str "b", str "A", [], []⟩ :=
  ⟨by decide, (claim_C8 (str "A b") (str "A") (str "b")).1 (by decide)⟩

/-- C5 witness: the failing-subprocess behaviour at a concrete output with
standard-error text "E". -/
theorem claim_C5_witness :
    SvnWrapper.checkout (.ok ⟨false, [], str "E"⟩) = .error (.commandFailed (str "E")) ∧
    SvnWrapper.commit (.ok ⟨false, [], str "E"⟩) = .error (.commandFailed (str "E")) ∧
    SvnWrapper.update (.ok ⟨false, [], str "E"⟩) = .error (.commandFailed (str "E")) ∧
    SvnWrapper.log (.ok ⟨false, [], str "E"⟩) = .error (.commandFailed (str "E")) ∧
    SvnInfo.new (.ok ⟨false, [], str "E"⟩) = .ret (.error (.commandFailed (str "E"))) ∧
    SvnStatus.new (.ok ⟨false, [], str "E"⟩) = .error (.commandFailed (str "E")) :=
  claim_C5 ⟨false, [], str "E"⟩ rfl
